import Mathlib

/-!
Shallow embedding of the what-if scoring engine from
`src/components/dashboard/WhatIfSection.tsx`.

Numeric values are modelled as rationals; `Math.round` in the source
rounds half toward positive infinity, which over the rationals is
`⌊x + 1/2⌋`.  Batteries marks the rational-number operations
irreducible; they are restored to semireducible so that concrete
evaluations go through `decide`.
-/

set_option allowUnsafeReducibility true in
attribute [semireducible] Rat.add Rat.sub Rat.mul Rat.inv Rat.ofScientific

/-- The five factors of `WEIGHTS` in the source. -/
inductive Factor
  | satisfaction
  | training
  | workHours
  | overtime
  | sickDays
deriving DecidableEq

/-- `WEIGHTS` from `WhatIfSection.tsx`: normalized weights that sum to 1. -/
def WEIGHTS : Factor → ℚ
  | .satisfaction => 0.30
  | .training => 0.25
  | .workHours => 0.18
  | .overtime => 0.15
  | .sickDays => 0.12

/-- The record of raw factor values (`baseline` / `adjustedValues` shape). -/
structure FactorValues where
  satisfaction : ℚ
  trainingHours : ℚ
  workHours : ℚ
  overtime : ℚ
  sickDays : ℚ
deriving DecidableEq

/-- `computeFactorScore` from `WhatIfSection.tsx`: converts a raw factor
value to a 0-100 score.  Each branch mirrors the source's
`Math.max(0, Math.min(100, ...))` clamp. -/
def computeFactorScore : Factor → ℚ → ℚ
  | .satisfaction, v => max 0 (min 100 ((v - 1) / 4 * 100))
  | .training, v => max 0 (min 100 (v / 80 * 100))
  | .workHours, v => max 0 (min 100 (100 - |v - 40| * 2.5))
  | .overtime, v => max 0 (min 100 (100 - v * 2.5))
  | .sickDays, v => max 0 (min 100 (100 - v * 5))

/-- `computeOverallScore` from `WhatIfSection.tsx`: the weighted sum of the
five factor scores. -/
def computeOverallScore (values : FactorValues) : ℚ :=
  computeFactorScore Factor.satisfaction values.satisfaction * WEIGHTS Factor.satisfaction +
  computeFactorScore Factor.training values.trainingHours * WEIGHTS Factor.training +
  computeFactorScore Factor.workHours values.workHours * WEIGHTS Factor.workHours +
  computeFactorScore Factor.overtime values.overtime * WEIGHTS Factor.overtime +
  computeFactorScore Factor.sickDays values.sickDays * WEIGHTS Factor.sickDays

/-- JavaScript `Math.round`: round half toward positive infinity. -/
def jsRound (x : ℚ) : ℤ := ⌊x + 1 / 2⌋

/-- `Math.round(x * 10) / 10`: round to one decimal place. -/
def round1 (x : ℚ) : ℚ := (jsRound (x * 10) : ℚ) / 10

/-- The per-factor slider deltas (`satisfactionDelta[0]` etc. in the
source; the `training` delta is applied to `trainingHours`). -/
structure Deltas where
  satisfaction : ℚ
  training : ℚ
  workHours : ℚ
  overtime : ℚ
  sickDays : ℚ
deriving DecidableEq

/-- `adjustedValues` from `WhatIfSection.tsx`: baseline plus deltas, with
per-factor domain clamps; the overtime delta is a percentage of the
baseline overtime. -/
def adjustedValues (baseline : FactorValues) (d : Deltas) : FactorValues :=
  ⟨max 1 (min 5 (baseline.satisfaction + d.satisfaction)),
   max 0 (min 100 (baseline.trainingHours + d.training)),
   max 20 (min 60 (baseline.workHours + d.workHours)),
   max 0 (min 40 (baseline.overtime + baseline.overtime * d.overtime / 100)),
   max 0 (min 20 (baseline.sickDays + d.sickDays))⟩

/-- The `category` field of `ScenarioResult`. -/
inductive Category
  | Low
  | Medium
  | High
deriving DecidableEq

/-- The `direction` field of an impact-breakdown entry. -/
inductive Direction
  | positive
  | negative
  | neutral
deriving DecidableEq

/-- One entry of `ScenarioResult.impactBreakdown`. -/
structure ImpactEntry where
  factor : String
  impact : ℚ
  direction : Direction
deriving DecidableEq

/-- `ScenarioResult` from `WhatIfSection.tsx`. -/
structure ScenarioResult where
  baselineScore : ℚ
  newScore : ℚ
  delta : ℚ
  percentChange : ℚ
  category : Category
  impactBreakdown : List ImpactEntry
deriving DecidableEq

/-- The raw field of `FactorValues` that a given factor reads
(`values.satisfaction`, `values.trainingHours`, ...). -/
def factorValue (values : FactorValues) : Factor → ℚ
  | .satisfaction => values.satisfaction
  | .training => values.trainingHours
  | .workHours => values.workHours
  | .overtime => values.overtime
  | .sickDays => values.sickDays

/-- The factor score of one factor of a `FactorValues` record
(the `baselineFactorScores` / `adjustedFactorScores` entries). -/
def factorScoreOf (values : FactorValues) (f : Factor) : ℚ :=
  computeFactorScore f (factorValue values f)

/-- The `impact` of one impact-breakdown entry in `runSimulation`:
`Math.round((adjusted - baseline) * weight * 10) / 10`. -/
def impactOf (baseline adjusted : FactorValues) (f : Factor) : ℚ :=
  (jsRound ((factorScoreOf adjusted f - factorScoreOf baseline f) * WEIGHTS f * 10) : ℚ) / 10

/-- The `direction` of one impact-breakdown entry in `runSimulation`:
a 0.5-point dead zone on the unweighted factor score. -/
def directionOf (baseline adjusted : FactorValues) (f : Factor) : Direction :=
  if factorScoreOf adjusted f > factorScoreOf baseline f + 0.5 then .positive
  else if factorScoreOf adjusted f < factorScoreOf baseline f - 0.5 then .negative
  else .neutral

/-- The display label of each factor in `impactBreakdown`. -/
def factorLabel : Factor → String
  | .satisfaction => "Satisfaction"
  | .training => "Training"
  | .workHours => "Work Hours"
  | .overtime => "Overtime"
  | .sickDays => "Sick Days"

/-- One impact-breakdown entry of `runSimulation`. -/
def mkImpactEntry (baseline adjusted : FactorValues) (f : Factor) : ImpactEntry :=
  ⟨factorLabel f, impactOf baseline adjusted f, directionOf baseline adjusted f⟩

/-- The `impactBreakdown` array built in `runSimulation`, in source order. -/
def impactBreakdown (baseline adjusted : FactorValues) : List ImpactEntry :=
  [mkImpactEntry baseline adjusted .satisfaction,
   mkImpactEntry baseline adjusted .training,
   mkImpactEntry baseline adjusted .workHours,
   mkImpactEntry baseline adjusted .overtime,
   mkImpactEntry baseline adjusted .sickDays]

/-- The local `delta` of `runSimulation`: the difference of the two
already-rounded overall scores, rounded again. -/
def deltaOf (baseline adjusted : FactorValues) : ℚ :=
  round1 (round1 (computeOverallScore adjusted) - round1 (computeOverallScore baseline))

/-- The local `percentChange` of `runSimulation`:
`Math.round((delta / roundedBaselineScore) * 1000) / 10` when the rounded
baseline score is positive, else 0. -/
def percentChangeOf (baseline adjusted : FactorValues) : ℚ :=
  if round1 (computeOverallScore baseline) > 0
  then (jsRound (deltaOf baseline adjusted / round1 (computeOverallScore baseline) * 1000) : ℚ) / 10
  else 0

/-- The result computation inside `runSimulation` in `WhatIfSection.tsx`
(the pure part: the `setResult` payload as a function of the baseline and
adjusted factor values). -/
def runSimulation (baseline adjusted : FactorValues) : ScenarioResult :=
  ⟨round1 (computeOverallScore baseline),
   round1 (computeOverallScore adjusted),
   deltaOf baseline adjusted,
   percentChangeOf baseline adjusted,
   if round1 (computeOverallScore adjusted) ≥ 75 then .High
   else if round1 (computeOverallScore adjusted) ≥ 50 then .Medium
   else .Low,
   impactBreakdown baseline adjusted⟩

/-- The initial `baseline` state in `WhatIfSection`. -/
def baseline : FactorValues := ⟨3.8, 35, 43, 10, 5⟩

/-- The "Training Boost" preset of `presetScenarios`: training delta +20,
all other deltas left at 0. -/
def trainingBoost : Deltas := ⟨0, 20, 0, 0, 0⟩

/-- Every factor score is nonnegative: the outer clamp is `max 0`. -/
theorem score_nonneg (f : Factor) (v : ℚ) : 0 ≤ computeFactorScore f v := by
  cases f <;> exact le_max_left 0 _

/-- Every factor score is at most 100: the inner clamp is `min 100`. -/
theorem score_le_100 (f : Factor) (v : ℚ) : computeFactorScore f v ≤ 100 := by
  cases f <;> exact max_le (by norm_num) (min_le_left 100 _)

/-- C1 counterexample: for the baseline, the weighted aggregate is not
70.0875 (so it does not round to 70.1 either). -/
theorem C1_counterexample :
    computeOverallScore baseline ≠ 70.0875 ∧
    round1 (computeOverallScore baseline) ≠ 70.1 := by
  refine ⟨?_, ?_⟩ <;> decide

/-- C1 (amended): for the baseline FactorValues
{satisfaction 3.8, trainingHours 35, workHours 43, overtime 10, sickDays 5},
the per-factor scores are {70, 43.75, 92.5, 75, 75}, and the weighted
aggregate overall score equals 68.8375, which rounds to one decimal place
as 68.8. -/
theorem C1_baseline_scores :
    computeFactorScore Factor.satisfaction baseline.satisfaction = 70 ∧
    computeFactorScore Factor.training baseline.trainingHours = 43.75 ∧
    computeFactorScore Factor.workHours baseline.workHours = 92.5 ∧
    computeFactorScore Factor.overtime baseline.overtime = 75 ∧
    computeFactorScore Factor.sickDays baseline.sickDays = 75 ∧
    computeOverallScore baseline = 68.8375 ∧
    round1 (computeOverallScore baseline) = 68.8 := by
  refine ⟨?_, ?_, ?_, ?_, ?_, ?_, ?_⟩ <;> decide

/-- C2 counterexample: applying the "Training Boost" preset to the
baseline, the new score does not round to 74.3, the delta is not 4.2, and
the category is not Medium. -/
theorem C2_counterexample :
    (runSimulation baseline (adjustedValues baseline trainingBoost)).newScore ≠ 74.3 ∧
    (runSimulation baseline (adjustedValues baseline trainingBoost)).delta ≠ 4.2 ∧
    (runSimulation baseline (adjustedValues baseline trainingBoost)).category ≠ Category.Medium := by
  refine ⟨?_, ?_, ?_⟩ <;> decide

/-- C2 (amended): applying the "Training Boost" preset (training delta
+20) to the baseline yields adjusted trainingHours 55, adjusted training
factor score 68.75, a new overall score of 75.0875 which rounds to 75.1, a
delta of 6.3, and category High (because 75.1 ≥ 75). -/
theorem C2_training_boost :
    (adjustedValues baseline trainingBoost).trainingHours = 55 ∧
    computeFactorScore Factor.training (adjustedValues baseline trainingBoost).trainingHours
      = 68.75 ∧
    computeOverallScore (adjustedValues baseline trainingBoost) = 75.0875 ∧
    (runSimulation baseline (adjustedValues baseline trainingBoost)).newScore = 75.1 ∧
    (runSimulation baseline (adjustedValues baseline trainingBoost)).delta = 6.3 ∧
    (runSimulation baseline (adjustedValues baseline trainingBoost)).category = Category.High := by
  refine ⟨?_, ?_, ?_, ?_, ?_, ?_⟩ <;> decide

/-- C3: every per-factor normalization lands in [0,100] for every rational
input, and consequently the overall score lands in [0,100] for every
FactorValues whatsoever. -/
theorem C3_bounds :
    (∀ (f : Factor) (v : ℚ),
      0 ≤ computeFactorScore f v ∧ computeFactorScore f v ≤ 100) ∧
    (∀ values : FactorValues,
      0 ≤ computeOverallScore values ∧ computeOverallScore values ≤ 100) := by
  refine ⟨fun f v => ⟨score_nonneg f v, score_le_100 f v⟩, fun values => ?_⟩
  have h1l := score_nonneg Factor.satisfaction values.satisfaction
  have h1u := score_le_100 Factor.satisfaction values.satisfaction
  have h2l := score_nonneg Factor.training values.trainingHours
  have h2u := score_le_100 Factor.training values.trainingHours
  have h3l := score_nonneg Factor.workHours values.workHours
  have h3u := score_le_100 Factor.workHours values.workHours
  have h4l := score_nonneg Factor.overtime values.overtime
  have h4u := score_le_100 Factor.overtime values.overtime
  have h5l := score_nonneg Factor.sickDays values.sickDays
  have h5u := score_le_100 Factor.sickDays values.sickDays
  simp only [computeOverallScore, WEIGHTS]
  constructor <;> nlinarith

/-- The satisfaction score is monotone in the raw value. -/
theorem satisfaction_score_mono {v1 v2 : ℚ} (h : v1 ≤ v2) :
    computeFactorScore Factor.satisfaction v1 ≤ computeFactorScore Factor.satisfaction v2 := by
  simp only [computeFactorScore]
  exact max_le_max le_rfl (min_le_min le_rfl (by linarith))

/-- The training score is monotone in the raw value. -/
theorem training_score_mono {v1 v2 : ℚ} (h : v1 ≤ v2) :
    computeFactorScore Factor.training v1 ≤ computeFactorScore Factor.training v2 := by
  simp only [computeFactorScore]
  exact max_le_max le_rfl (min_le_min le_rfl (by linarith))

/-- The overtime score is antitone in the raw value. -/
theorem overtime_score_anti {v1 v2 : ℚ} (h : v1 ≤ v2) :
    computeFactorScore Factor.overtime v2 ≤ computeFactorScore Factor.overtime v1 := by
  simp only [computeFactorScore]
  exact max_le_max le_rfl (min_le_min le_rfl (by linarith))

/-- The sick-days score is antitone in the raw value. -/
theorem sickDays_score_anti {v1 v2 : ℚ} (h : v1 ≤ v2) :
    computeFactorScore Factor.sickDays v2 ≤ computeFactorScore Factor.sickDays v1 := by
  simp only [computeFactorScore]
  exact max_le_max le_rfl (min_le_min le_rfl (by linarith))

/-- C4: the overall score is monotone nondecreasing in satisfaction and
training hours, monotone nonincreasing in overtime and sick days (the
other four factors held fixed), and the work-hours factor score attains
its maximum exactly at workHours = 40. -/
theorem C4_monotonicity :
    (∀ (t w o d s1 s2 : ℚ), s1 ≤ s2 →
      computeOverallScore ⟨s1, t, w, o, d⟩ ≤ computeOverallScore ⟨s2, t, w, o, d⟩) ∧
    (∀ (s w o d t1 t2 : ℚ), t1 ≤ t2 →
      computeOverallScore ⟨s, t1, w, o, d⟩ ≤ computeOverallScore ⟨s, t2, w, o, d⟩) ∧
    (∀ (s t w d o1 o2 : ℚ), o1 ≤ o2 →
      computeOverallScore ⟨s, t, w, o2, d⟩ ≤ computeOverallScore ⟨s, t, w, o1, d⟩) ∧
    (∀ (s t w o d1 d2 : ℚ), d1 ≤ d2 →
      computeOverallScore ⟨s, t, w, o, d2⟩ ≤ computeOverallScore ⟨s, t, w, o, d1⟩) ∧
    (∀ v : ℚ,
      computeFactorScore Factor.workHours v ≤ computeFactorScore Factor.workHours 40 ∧
      (computeFactorScore Factor.workHours v = computeFactorScore Factor.workHours 40 →
        v = 40)) := by
  have h40 : computeFactorScore Factor.workHours 40 = 100 := by decide
  refine ⟨?_, ?_, ?_, ?_, ?_⟩
  · intro t w o d s1 s2 h
    have hs := satisfaction_score_mono h
    simp only [computeOverallScore, WEIGHTS]
    nlinarith
  · intro s w o d t1 t2 h
    have hs := training_score_mono h
    simp only [computeOverallScore, WEIGHTS]
    nlinarith
  · intro s t w d o1 o2 h
    have hs := overtime_score_anti h
    simp only [computeOverallScore, WEIGHTS]
    nlinarith
  · intro s t w o d1 d2 h
    have hs := sickDays_score_anti h
    simp only [computeOverallScore, WEIGHTS]
    nlinarith
  · intro v
    rw [h40]
    refine ⟨score_le_100 Factor.workHours v, fun hv => ?_⟩
    by_contra hne
    have habs : 0 < |v - 40| := abs_pos.mpr (sub_ne_zero.mpr hne)
    have hlt : 100 - |v - 40| * 2.5 < 100 := by nlinarith
    have hmin : min 100 (100 - |v - 40| * 2.5) < 100 :=
      lt_of_le_of_lt (min_le_right 100 _) hlt
    have hmax : max 0 (min 100 (100 - |v - 40| * 2.5)) < 100 :=
      max_lt (by norm_num) hmin
    simp only [computeFactorScore] at hv
    rw [hv] at hmax
    exact lt_irrefl 100 hmax

/-- C4 witness: the four monotonicity implications and the uniqueness
implication, each applied at a concrete input. -/
theorem C4_monotonicity_witness :
    ((2:ℚ) ≤ 3 ∧ computeOverallScore ⟨2, 35, 43, 10, 5⟩ ≤ computeOverallScore ⟨3, 35, 43, 10, 5⟩) ∧
    ((30:ℚ) ≤ 50 ∧ computeOverallScore ⟨3.8, 30, 43, 10, 5⟩ ≤ computeOverallScore ⟨3.8, 50, 43, 10, 5⟩) ∧
    ((5:ℚ) ≤ 15 ∧ computeOverallScore ⟨3.8, 35, 43, 15, 5⟩ ≤ computeOverallScore ⟨3.8, 35, 43, 5, 5⟩) ∧
    ((2:ℚ) ≤ 9 ∧ computeOverallScore ⟨3.8, 35, 43, 10, 9⟩ ≤ computeOverallScore ⟨3.8, 35, 43, 10, 2⟩) ∧
    (computeFactorScore Factor.workHours 40 = computeFactorScore Factor.workHours 40 ∧
      (40:ℚ) = 40) :=
  ⟨⟨by decide, C4_monotonicity.1 35 43 10 5 2 3 (by decide)⟩,
   ⟨by decide, C4_monotonicity.2.1 3.8 43 10 5 30 50 (by decide)⟩,
   ⟨by decide, C4_monotonicity.2.2.1 3.8 35 43 5 5 15 (by decide)⟩,
   ⟨by decide, C4_monotonicity.2.2.2.1 3.8 35 43 10 2 9 (by decide)⟩,
   ⟨rfl, (C4_monotonicity.2.2.2.2 40).2 rfl⟩⟩

/-- C5: the category of a comparison result is High exactly when the
rounded new score is at least 75, Medium exactly when it is in [50, 75),
and Low exactly when it is below 50. -/
theorem C5_category_bands (b a : FactorValues) :
    ((runSimulation b a).category = Category.High ↔
      75 ≤ (runSimulation b a).newScore) ∧
    ((runSimulation b a).category = Category.Medium ↔
      50 ≤ (runSimulation b a).newScore ∧ (runSimulation b a).newScore < 75) ∧
    ((runSimulation b a).category = Category.Low ↔
      (runSimulation b a).newScore < 50) := by
  simp only [runSimulation, ge_iff_le]
  split_ifs with h1 h2
  · exact ⟨iff_of_true rfl h1,
      iff_of_false (by decide) (fun hc => absurd h1 (by linarith [hc.2])),
      iff_of_false (by decide) (by intro h; linarith)⟩
  · exact ⟨iff_of_false (by decide) h1,
      iff_of_true rfl ⟨h2, not_le.mp h1⟩,
      iff_of_false (by decide) (by intro h; linarith)⟩
  · exact ⟨iff_of_false (by decide) h1,
      iff_of_false (by decide) (fun hc => h2 hc.1),
      iff_of_true rfl (not_le.mp h2)⟩

/-- Rounding a value of the form `x * 100` to one decimal place equals
`Math.round(x * 1000) / 10`. -/
theorem round1_mul_100 (x : ℚ) : round1 (x * 100) = (jsRound (x * 1000) : ℚ) / 10 := by
  have h : x * 100 * 10 = x * 1000 := by ring
  simp only [round1, h]

/-- C6: when the rounded baseline score is positive, the percent change is
`round1(delta / baselineScore * 100)`; when it is zero, the percent change
is 0 (and the computation is total, so nothing is raised). -/
theorem C6_percent_change (b a : FactorValues) :
    (0 < (runSimulation b a).baselineScore →
      (runSimulation b a).percentChange =
        round1 ((runSimulation b a).delta / (runSimulation b a).baselineScore * 100)) ∧
    ((runSimulation b a).baselineScore = 0 →
      (runSimulation b a).percentChange = 0) := by
  constructor
  · intro h
    have h' : round1 (computeOverallScore b) > 0 := h
    show percentChangeOf b a =
      round1 (deltaOf b a / round1 (computeOverallScore b) * 100)
    rw [round1_mul_100]
    simp only [percentChangeOf]
    rw [if_pos h']
  · intro h
    have h' : round1 (computeOverallScore b) = 0 := h
    show percentChangeOf b a = 0
    simp [percentChangeOf, h']

/-- C6 witness: the positive branch at the default baseline, and the zero
branch at an input whose five factor scores are all zero. -/
theorem C6_percent_change_witness :
    (0 < (runSimulation baseline baseline).baselineScore ∧
      (runSimulation baseline baseline).percentChange =
        round1 ((runSimulation baseline baseline).delta /
          (runSimulation baseline baseline).baselineScore * 100)) ∧
    ((runSimulation ⟨1, 0, 80, 40, 20⟩ baseline).baselineScore = 0 ∧
      (runSimulation ⟨1, 0, 80, 40, 20⟩ baseline).percentChange = 0) :=
  ⟨⟨by decide, (C6_percent_change baseline baseline).1 (by decide)⟩,
   ⟨by decide, (C6_percent_change ⟨1, 0, 80, 40, 20⟩ baseline).2 (by decide)⟩⟩

/-- C7: comparing a state against itself yields a zero delta, a zero
percent change, and five impact entries that are all neutral with zero
impact. -/
theorem C7_zero_delta (b : FactorValues) :
    (runSimulation b b).delta = 0 ∧
    (runSimulation b b).percentChange = 0 ∧
    ∀ e ∈ (runSimulation b b).impactBreakdown,
      e.direction = Direction.neutral ∧ e.impact = 0 := by
  have hdelta : deltaOf b b = 0 := by
    simp only [deltaOf, sub_self]
    decide
  have himp : ∀ f : Factor, impactOf b b f = 0 := by
    intro f
    simp only [impactOf, sub_self, zero_mul]
    decide
  have hdir : ∀ f : Factor, directionOf b b f = Direction.neutral := by
    intro f
    simp only [directionOf]
    rw [if_neg (by intro hc; linarith), if_neg (by intro hc; linarith)]
  refine ⟨hdelta, ?_, ?_⟩
  · show percentChangeOf b b = 0
    simp only [percentChangeOf, hdelta]
    split_ifs with h
    · rw [zero_div, zero_mul]
      decide
    · rfl
  · intro e he
    simp only [runSimulation, impactBreakdown, List.mem_cons, List.not_mem_nil,
      or_false] at he
    rcases he with h | h | h | h | h <;> subst h <;> exact ⟨hdir _, himp _⟩

/-- C7 witness: the zero-delta identity applied at the default baseline,
with one concrete member of the impact breakdown. -/
theorem C7_zero_delta_witness :
    (runSimulation baseline baseline).delta = 0 ∧
    (runSimulation baseline baseline).percentChange = 0 ∧
    (mkImpactEntry baseline baseline Factor.training).direction = Direction.neutral ∧
    (mkImpactEntry baseline baseline Factor.training).impact = 0 :=
  ⟨(C7_zero_delta baseline).1, (C7_zero_delta baseline).2.1,
   ((C7_zero_delta baseline).2.2 (mkImpactEntry baseline baseline Factor.training)
     (by simp [runSimulation, impactBreakdown])).1,
   ((C7_zero_delta baseline).2.2 (mkImpactEntry baseline baseline Factor.training)
     (by simp [runSimulation, impactBreakdown])).2⟩

/-- C8: the adjusted values are the clamped additive deltas for
satisfaction, trainingHours, workHours and sickDays (domains [1,5],
[0,100], [20,60], [0,20]), and the clamped relative-percent delta for
overtime (domain [0,40]); an overtime delta of +1000% on baseline
overtime 10 saturates at 40. -/
theorem C8_adjustment :
    (∀ (b : FactorValues) (d : Deltas),
      (adjustedValues b d).satisfaction = max 1 (min 5 (b.satisfaction + d.satisfaction)) ∧
      (adjustedValues b d).trainingHours = max 0 (min 100 (b.trainingHours + d.training)) ∧
      (adjustedValues b d).workHours = max 20 (min 60 (b.workHours + d.workHours)) ∧
      (adjustedValues b d).overtime =
        max 0 (min 40 (b.overtime + b.overtime * (d.overtime / 100))) ∧
      (adjustedValues b d).sickDays = max 0 (min 20 (b.sickDays + d.sickDays))) ∧
    (adjustedValues baseline ⟨0, 0, 0, 1000, 0⟩).overtime = 40 := by
  refine ⟨fun b d => ⟨rfl, rfl, rfl, ?_, rfl⟩, by decide⟩
  simp only [adjustedValues]
  rw [mul_div_assoc]

/-- C9: the comparison rounds at intermediate steps in this order:
baseline score first, new score second, and the delta is the rounded
difference of the two already-rounded scores; on a concrete pair the
result differs from rounding the unrounded difference (0.2 versus 0.1). -/
theorem C9_rounding_order :
    (∀ b a : FactorValues,
      (runSimulation b a).baselineScore = round1 (computeOverallScore b) ∧
      (runSimulation b a).newScore = round1 (computeOverallScore a) ∧
      (runSimulation b a).delta =
        round1 ((runSimulation b a).newScore - (runSimulation b a).baselineScore)) ∧
    ((runSimulation ⟨3.8, 35.008, 43, 10, 5⟩ ⟨3.8, 35.392, 43, 10, 5⟩).delta = 0.2 ∧
      round1 (computeOverallScore (⟨3.8, 35.392, 43, 10, 5⟩ : FactorValues) -
        computeOverallScore (⟨3.8, 35.008, 43, 10, 5⟩ : FactorValues)) = 0.1) :=
  ⟨fun _ _ => ⟨rfl, rfl, rfl⟩, by decide, by decide⟩

/-- C10: the unrounded overall-score change decomposes exactly into the
five weighted factor-score changes, and a positive direction forces a
rounded impact of at least 0.1 while a negative direction forces at most
-0.1. -/
theorem C10_impact_decomposition (b a : FactorValues) :
    (computeOverallScore a - computeOverallScore b =
      WEIGHTS Factor.satisfaction *
        (factorScoreOf a Factor.satisfaction - factorScoreOf b Factor.satisfaction) +
      WEIGHTS Factor.training *
        (factorScoreOf a Factor.training - factorScoreOf b Factor.training) +
      WEIGHTS Factor.workHours *
        (factorScoreOf a Factor.workHours - factorScoreOf b Factor.workHours) +
      WEIGHTS Factor.overtime *
        (factorScoreOf a Factor.overtime - factorScoreOf b Factor.overtime) +
      WEIGHTS Factor.sickDays *
        (factorScoreOf a Factor.sickDays - factorScoreOf b Factor.sickDays)) ∧
    (∀ f : Factor,
      (directionOf b a f = Direction.positive → 1 / 10 ≤ impactOf b a f) ∧
      (directionOf b a f = Direction.negative → impactOf b a f ≤ -(1 / 10))) := by
  constructor
  · simp only [computeOverallScore, factorScoreOf, factorValue]
    ring
  · intro f
    have hw : (0.12 : ℚ) ≤ WEIGHTS f := by cases f <;> norm_num [WEIGHTS]
    constructor
    · intro hd
      have h1 : factorScoreOf a f > factorScoreOf b f + 0.5 := by
        by_contra hc
        simp only [directionOf, if_neg hc] at hd
        split_ifs at hd
      have hx : (0.6 : ℚ) <
          (factorScoreOf a f - factorScoreOf b f) * WEIGHTS f * 10 := by nlinarith
      have hfl : (1 : ℤ) ≤
          jsRound ((factorScoreOf a f - factorScoreOf b f) * WEIGHTS f * 10) := by
        unfold jsRound
        refine Int.le_floor.mpr ?_
        push_cast
        linarith
      have hcast : (1 : ℚ) ≤
          (jsRound ((factorScoreOf a f - factorScoreOf b f) * WEIGHTS f * 10) : ℚ) := by
        exact_mod_cast hfl
      simp only [impactOf]
      linarith
    · intro hd
      have h2 : factorScoreOf a f < factorScoreOf b f - 0.5 := by
        by_contra hc
        simp only [directionOf] at hd
        split_ifs at hd
      have hx : (factorScoreOf a f - factorScoreOf b f) * WEIGHTS f * 10 <
          -(0.6 : ℚ) := by nlinarith
      have hfl : jsRound ((factorScoreOf a f - factorScoreOf b f) * WEIGHTS f * 10) ≤
          -1 := by
        unfold jsRound
        have h0 : ⌊(factorScoreOf a f - factorScoreOf b f) * WEIGHTS f * 10 + 1 / 2⌋ <
            (0 : ℤ) := by
          refine Int.floor_lt.mpr ?_
          push_cast
          linarith
        omega
      have hcast :
          (jsRound ((factorScoreOf a f - factorScoreOf b f) * WEIGHTS f * 10) : ℚ) ≤
            -1 := by
        exact_mod_cast hfl
      simp only [impactOf]
      linarith

/-- C10 witness: the decomposition and the positive-direction bound,
applied at the baseline against the Training Boost adjustment. -/
theorem C10_impact_decomposition_witness :
    directionOf baseline (adjustedValues baseline trainingBoost) Factor.training =
      Direction.positive ∧
    1 / 10 ≤ impactOf baseline (adjustedValues baseline trainingBoost) Factor.training :=
  ⟨by decide,
   ((C10_impact_decomposition baseline
       (adjustedValues baseline trainingBoost)).2 Factor.training).1 (by decide)⟩
